import Mathlib

/-!
Shallow embedding of the `vscode-marketplace-client` library
(`src/services/vscode-marketplace-service.ts`, `src/errors/*`, `src/types/*`).

The gallery HTTP endpoint is modelled as a pure function from the query
payload the service builds to the parsed `results` array of the response.
JavaScript runtime failures that escape the typed error taxonomy
(dereferencing `undefined`) are modelled by the `genericFailure`
constructor; a JavaScript `undefined` value that leaks out of a typed
signature is modelled by `Option.none`.
-/

/-- `src/types/publisher-info.ts`: the `PublisherInfo` interface. -/
structure PublisherInfo where
  publisherId : String
  publisherName : String
  displayName : String
  flags : String
  domain : String
  isDomainVerified : Bool
deriving Repr, DecidableEq

/-- The `ExtensionFile` interface (asset entry of a version). -/
structure ExtensionFile where
  assetType : String
  source : String
deriving Repr, DecidableEq

/-- `src/types/extension-version.ts`: the `ExtensionVersion` interface. -/
structure ExtensionVersion where
  version : String
  flags : String
  lastUpdated : String
  files : List ExtensionFile
  assetUri : String
  fallbackAssetUri : String
deriving Repr, DecidableEq

/-- The `ExtensionInfo` interface (one marketplace extension). -/
structure ExtensionInfo where
  publisher : PublisherInfo
  extensionId : String
  extensionName : String
  displayName : String
  flags : String
  lastUpdated : String
  publishedDate : String
  releaseDate : String
  presentInConflictList : String
  shortDescription : String
  versions : List ExtensionVersion
  categories : List String
  tags : List String
  statistics : List (String × Int)
  deploymentType : Int
deriving Repr, DecidableEq

/-- The `SearchResults` interface: one result group of the gallery response. -/
structure SearchResults where
  extensions : List ExtensionInfo
deriving Repr, DecidableEq

/-- `src/errors/*`: the error taxonomy, as a tagged union.  The field names
mirror the TypeScript constructor parameters (`extensionId`, `version`);
the service code in fact passes fixed message strings for `extensionId`.
`genericFailure` stands for untyped runtime failures (JavaScript
`TypeError` on dereferencing `undefined`, transport errors). -/
inductive MarketplaceError where
  | extensionNotFound (extensionId : String)
  | versionNotFound (extensionId : String) (version : String)
  | vsixFileNotFound (extensionId : String)
  | genericFailure (message : String)
deriving Repr, DecidableEq

/-- One criterion of the query payload (`filterType` 7, value `pub.ext`). -/
structure QueryCriterion where
  filterType : Nat
  value : String
deriving Repr, DecidableEq

/-- One filter group of the query payload. -/
structure QueryFilter where
  criteria : List QueryCriterion
deriving Repr, DecidableEq

/-- The request body `fetchExtensionData` sends to the gallery endpoint. -/
structure QueryPayload where
  filters : List QueryFilter
  flags : Nat
deriving Repr, DecidableEq

/-- `src/types/query-flag.ts`: the closed set of recognized flag literals. -/
def queryFlagValues : List Nat :=
  [0, 1, 2, 4, 8, 16, 32, 64, 128, 256, 512, 1024, 2048, 4096, 8192, 16384,
   16863, 32768]

/-- Membership in the closed `QueryFlag` literal set. -/
def isQueryFlag (n : Nat) : Bool :=
  queryFlagValues.contains n

/-- The flag encoder: `(flags as number[]).reduce((acc, flag) => acc | flag, 0)`
from `fetchExtensionData`. -/
def encodeFlags (flags : List Nat) : Nat :=
  flags.foldl (fun acc flag => acc ||| flag) 0

/-- The payload `fetchExtensionData` builds: one filter group, one criterion
with `filterType: 7` and value `` `${publisher}.${extension}` ``, plus the
OR-folded flags. -/
def mkPayload (publisher extension : String) (flags : List Nat) : QueryPayload :=
  { filters :=
      [{ criteria := [{ filterType := 7, value := publisher ++ "." ++ extension }] }],
    flags := encodeFlags flags }

/-- A deterministic gallery: the parsed `results` array of the response,
as a function of the request payload. -/
abbrev Gallery := QueryPayload → List SearchResults

/-- `fetchExtensionData`: posts the payload and returns `data.results`. -/
def fetchExtensionData (gallery : Gallery) (publisher extension : String)
    (flags : List Nat) : List SearchResults :=
  gallery (mkPayload publisher extension flags)

/-- Message of `new ExtensionNotFoundError('Extension not found.')`. -/
def extensionNotFoundMessage : String := "Extension not found."

/-- First argument of `new VersionNotFoundError('Version not found.', version)`. -/
def versionNotFoundMessage : String := "Version not found."

/-- Argument of `new VsixFileNotFoundError('VSIX file not found.')`. -/
def vsixFileNotFoundMessage : String := "VSIX file not found."

/-- The asset-type constant scanned for by `getVsixDownloadUrl`. -/
def vsixPackageAssetType : String := "Microsoft.VisualStudio.Services.VSIXPackage"

/-- Label for the TypeError raised by `results[0].extensions` when `results`
is empty (`results[0]` is `undefined`). -/
def resultsIndexErrorMessage : String :=
  "TypeError: cannot read properties of undefined, reading extensions"

/-- Label for the TypeError raised by reading `.version` of `undefined`. -/
def undefinedVersionErrorMessage : String :=
  "TypeError: cannot read properties of undefined, reading version"

/-- Label for the TypeError raised by reading `.files` of `undefined`. -/
def undefinedFilesErrorMessage : String :=
  "TypeError: cannot read properties of undefined, reading files"

/-- `getExtensionInfo`: takes `results[0].extensions`; empty `results` makes
the index dereference fail with a runtime TypeError (generic failure);
an empty extensions list raises the typed `ExtensionNotFoundError`;
otherwise returns `extensions[0]`. -/
def getExtensionInfo (gallery : Gallery) (publisher extension : String)
    (flags : List Nat) : Except MarketplaceError ExtensionInfo :=
  match fetchExtensionData gallery publisher extension flags with
  | [] => Except.error (MarketplaceError.genericFailure resultsIndexErrorMessage)
  | r :: _ =>
    match r.extensions with
    | [] => Except.error (MarketplaceError.extensionNotFound extensionNotFoundMessage)
    | e :: _ => Except.ok e

/-- `getExtensionVersion`: resolves the extension with flags `[1, 2]`; a
falsy `version` argument (absent or the empty string, the JavaScript
`!version` test) yields `versions[0]` — `Option.none` models the
`undefined` that `versions[0]` is on an empty list; otherwise a linear
scan for exact string equality, raising `VersionNotFoundError` with the
fixed message string and the requested version on no match. -/
def getExtensionVersion (gallery : Gallery) (publisher extension : String)
    (version : Option String) : Except MarketplaceError (Option ExtensionVersion) :=
  match getExtensionInfo gallery publisher extension [1, 2] with
  | Except.error e => Except.error e
  | Except.ok extensionInfo =>
    match version with
    | none => Except.ok extensionInfo.versions.head?
    | some v =>
      if v = "" then Except.ok extensionInfo.versions.head?
      else
        match extensionInfo.versions.find? (fun entry => entry.version == v) with
        | none =>
          Except.error (MarketplaceError.versionNotFound versionNotFoundMessage v)
        | some foundVersion => Except.ok (some foundVersion)

/-- `getLatestVersion`: `(await getExtensionVersion(p, e)).version`; reading
`.version` of a leaked `undefined` is a runtime TypeError. -/
def getLatestVersion (gallery : Gallery) (publisher extension : String) :
    Except MarketplaceError String :=
  match getExtensionVersion gallery publisher extension none with
  | Except.error e => Except.error e
  | Except.ok none =>
    Except.error (MarketplaceError.genericFailure undefinedVersionErrorMessage)
  | Except.ok (some latestVersion) => Except.ok latestVersion.version

/-- `getVsixDownloadUrl`: resolves the latest version, scans its `files` for
the VSIX package asset type, returns its `source`; no match raises the
typed `VsixFileNotFoundError`. -/
def getVsixDownloadUrl (gallery : Gallery) (publisher extension : String) :
    Except MarketplaceError String :=
  match getExtensionVersion gallery publisher extension none with
  | Except.error e => Except.error e
  | Except.ok none =>
    Except.error (MarketplaceError.genericFailure undefinedFilesErrorMessage)
  | Except.ok (some extensionVersion) =>
    match extensionVersion.files.find?
        (fun file => file.assetType == vsixPackageAssetType) with
    | none => Except.error (MarketplaceError.vsixFileNotFound vsixFileNotFoundMessage)
    | some vsixAsset => Except.ok vsixAsset.source

/-- Local storage: a map from paths to file byte contents. -/
abbrev FileSystem := String → Option (List Nat)

/-- Writing a file replaces whatever was at that path. -/
def writeFile (fs : FileSystem) (path : String) (content : List Nat) : FileSystem :=
  fun p => if p = path then some content else fs p

/-- `path.join(outputDir, fileName)` of Node, restricted to the shapes this
library produces: the current or empty directory disappears, otherwise the
segments are joined with a separator. -/
def pathJoin (dir file : String) : String :=
  if dir = "" ∨ dir = "." then file else dir ++ "/" ++ file

/-- `downloadFile(url, destination)`: streams the bytes served at `url` into
a newly created file at `destination` and resolves with `destination`.
`serve` is the byte stream the network serves at each URL. -/
def downloadFile (serve : String → List Nat) (fs : FileSystem)
    (url destination : String) : FileSystem × String :=
  (writeFile fs destination (serve url), destination)

/-- `downloadExtensionVsix(publisher, extension, outputDir = '.')`: resolves
the latest version (for the filename), resolves the download URL (which
re-resolves the version internally), then downloads to
`join(outputDir, publisher + "." + extension + "-" + version + ".vsix")`. -/
def downloadExtensionVsix (gallery : Gallery) (serve : String → List Nat)
    (fs : FileSystem) (publisher extension : String) (outputDir : String) :
    Except MarketplaceError (FileSystem × String) :=
  match getExtensionVersion gallery publisher extension none with
  | Except.error e => Except.error e
  | Except.ok extensionVersion =>
    match getVsixDownloadUrl gallery publisher extension with
    | Except.error e => Except.error e
    | Except.ok downloadUrl =>
      match extensionVersion with
      | none =>
        Except.error (MarketplaceError.genericFailure undefinedVersionErrorMessage)
      | some v =>
        Except.ok (downloadFile serve fs downloadUrl
          (pathJoin outputDir
            (publisher ++ "." ++ extension ++ "-" ++ v.version ++ ".vsix")))

/-- Modelled from the spec: the coalesced variant of `downloadExtensionVsix`
the spec says an implementer may substitute — it performs a single version
resolution and reuses it for both the filename and the asset lookup. -/
def downloadExtensionVsixCoalesced (gallery : Gallery) (serve : String → List Nat)
    (fs : FileSystem) (publisher extension : String) (outputDir : String) :
    Except MarketplaceError (FileSystem × String) :=
  match getExtensionVersion gallery publisher extension none with
  | Except.error e => Except.error e
  | Except.ok none =>
    Except.error (MarketplaceError.genericFailure undefinedFilesErrorMessage)
  | Except.ok (some v) =>
    match v.files.find? (fun file => file.assetType == vsixPackageAssetType) with
    | none => Except.error (MarketplaceError.vsixFileNotFound vsixFileNotFoundMessage)
    | some vsixAsset =>
      Except.ok (downloadFile serve fs vsixAsset.source
        (pathJoin outputDir
          (publisher ++ "." ++ extension ++ "-" ++ v.version ++ ".vsix")))

/-! ### Concrete fixtures used by witnesses and counterexamples -/

/-- A sample publisher record. -/
def samplePublisher : PublisherInfo :=
  { publisherId := "pid-1", publisherName := "pub", displayName := "Pub",
    flags := "verified", domain := "https://example.com", isDomainVerified := true }

/-- A non-VSIX asset entry. -/
def manifestFile : ExtensionFile :=
  { assetType := "Microsoft.VisualStudio.Services.Content.Details",
    source := "https://gallery.example/details" }

/-- A VSIX asset entry. -/
def vsixFileOne : ExtensionFile :=
  { assetType := "Microsoft.VisualStudio.Services.VSIXPackage",
    source := "https://gallery.example/vsix-first" }

/-- A second VSIX asset entry with a different source. -/
def vsixFileTwo : ExtensionFile :=
  { assetType := "Microsoft.VisualStudio.Services.VSIXPackage",
    source := "https://gallery.example/vsix-second" }

/-- Latest version fixture, with a unique VSIX asset. -/
def versionLatest : ExtensionVersion :=
  { version := "2.0.0", flags := "validated", lastUpdated := "2025-03-01",
    files := [manifestFile, vsixFileOne],
    assetUri := "https://gallery.example/assets/2.0.0",
    fallbackAssetUri := "https://gallery.example/fallback/2.0.0" }

/-- Older version fixture `1.2.3`. -/
def versionOneTwoThree : ExtensionVersion :=
  { version := "1.2.3", flags := "validated", lastUpdated := "2025-01-01",
    files := [vsixFileOne],
    assetUri := "https://gallery.example/assets/1.2.3",
    fallbackAssetUri := "https://gallery.example/fallback/1.2.3" }

/-- Older version fixture `1.2.30`, a string-prefix near-collision of `1.2.3`. -/
def versionOneTwoThirty : ExtensionVersion :=
  { version := "1.2.30", flags := "validated", lastUpdated := "2025-02-01",
    files := [manifestFile],
    assetUri := "https://gallery.example/assets/1.2.30",
    fallbackAssetUri := "https://gallery.example/fallback/1.2.30" }

/-- Builds an `ExtensionInfo` fixture around a versions list. -/
def mkInfo (versions : List ExtensionVersion) : ExtensionInfo :=
  { publisher := samplePublisher, extensionId := "xid-1", extensionName := "ext",
    displayName := "Ext", flags := "public", lastUpdated := "2025-03-01",
    publishedDate := "2024-01-01", releaseDate := "2024-01-01",
    presentInConflictList := "false", shortDescription := "demo",
    versions := versions, categories := ["Other"], tags := ["demo"],
    statistics := [("installs", 42)], deploymentType := 0 }

/-- A gallery that returns a single result set with a single extension. -/
def mkGallery (info : ExtensionInfo) : Gallery :=
  fun _ => [{ extensions := [info] }]

/-- Main extension fixture: three versions, latest first. -/
def infoA : ExtensionInfo :=
  mkInfo [versionLatest, versionOneTwoThree, versionOneTwoThirty]

/-- Main fixture gallery: three versions, latest first. -/
def galleryA : Gallery :=
  mkGallery infoA

/-- Version fixture carrying two VSIX assets. -/
def versionWithTwoVsix : ExtensionVersion :=
  { version := "3.0.0", flags := "validated", lastUpdated := "2025-04-01",
    files := [manifestFile, vsixFileOne, vsixFileTwo],
    assetUri := "https://gallery.example/assets/3.0.0",
    fallbackAssetUri := "https://gallery.example/fallback/3.0.0" }

/-- Fixture gallery whose latest version carries two VSIX assets. -/
def galleryB : Gallery :=
  mkGallery (mkInfo [versionWithTwoVsix])

/-- Fixture gallery whose extension has an empty versions list. -/
def galleryEmptyVersions : Gallery :=
  mkGallery (mkInfo [])

/-- Fixture gallery returning one result set with zero extensions. -/
def galleryNoExtensions : Gallery :=
  fun _ => [{ extensions := [] }]

/-- Fixture gallery returning an empty top-level results array. -/
def galleryEmptyResults : Gallery :=
  fun _ => []

/-- Network fixture: bytes served per URL. -/
def serveA : String → List Nat :=
  fun url => if url = "https://gallery.example/vsix-first" then [80, 75, 3, 4] else []

/-- An empty local file system. -/
def emptyFs : FileSystem :=
  fun _ => none

/-! ### Helper lemmas -/

/-- `find?` returns the unique element satisfying the predicate. -/
theorem find_of_unique {α : Type} (p : α → Bool) (a : α) :
    ∀ l : List α, a ∈ l → p a = true → (∀ b ∈ l, p b = true → b = a) →
      l.find? p = some a := by
  intro l
  induction l with
  | nil => intro h _ _; exact absurd h (List.not_mem_nil a)
  | cons x xs ih =>
    intro hmem hpa huniq
    by_cases hx : p x = true
    · have hxa : x = a := huniq x (List.mem_cons_self x xs) hx
      rw [List.find?_cons_of_pos _ hx, hxa]
    · have hmem' : a ∈ xs := by
        rcases List.mem_cons.mp hmem with h | h
        · exact absurd hpa (h ▸ hx)
        · exact h
      rw [List.find?_cons_of_neg _ hx]
      exact ih hmem' hpa (fun b hb hpb => huniq b (List.mem_cons_of_mem x hb) hpb)

/-- `find?` returns the first match of an append-decomposed list. -/
theorem find_first_of_append {α : Type} (p : α → Bool) (a : α) (l₂ : List α) :
    ∀ l₁ : List α, (∀ b ∈ l₁, p b = false) → p a = true →
      (l₁ ++ a :: l₂).find? p = some a := by
  intro l₁
  induction l₁ with
  | nil => intro _ hpa; simpa using List.find?_cons_of_pos l₂ hpa
  | cons x xs ih =>
    intro hall hpa
    have hx : p x = false := hall x (List.mem_cons_self x xs)
    rw [List.cons_append, List.find?_cons_of_neg _ (by simp [hx])]
    exact ih (fun b hb => hall b (List.mem_cons_of_mem x hb)) hpa

/-- Folding bitwise OR over a list is invariant under permutation. -/
theorem foldl_or_perm {l₁ l₂ : List Nat} (h : l₁.Perm l₂) :
    ∀ b : Nat, l₁.foldl (fun acc flag => acc ||| flag) b
      = l₂.foldl (fun acc flag => acc ||| flag) b := by
  induction h with
  | nil => intro b; rfl
  | cons x _ ih => intro b; exact ih (b ||| x)
  | swap x y l =>
    intro b
    show List.foldl _ ((b ||| y) ||| x) l = List.foldl _ ((b ||| x) ||| y) l
    rw [Nat.or_assoc, Nat.or_assoc, Nat.or_comm y x]
  | trans _ _ ih₁ ih₂ => intro b; rw [ih₁ b, ih₂ b]

/-! ### Claim theorems -/

/-- C1: against a gallery whose first result set contains zero extensions,
`getExtensionInfo` rejects with the typed `ExtensionNotFound` error and
never returns a value, and every other facade operation
(`getExtensionVersion`, `getLatestVersion`, `getVsixDownloadUrl`,
`downloadExtensionVsix`) rejects with the same typed `ExtensionNotFound`
error, not a generic failure. -/
theorem facade_rejects_with_extensionNotFound (gallery : Gallery)
    (publisher extension : String) (flags : List Nat) (version : Option String)
    (serve : String → List Nat) (fs : FileSystem) (outputDir : String)
    (h : ∀ p : QueryPayload, ∃ r rest, gallery p = r :: rest ∧ r.extensions = []) :
    getExtensionInfo gallery publisher extension flags
      = Except.error (MarketplaceError.extensionNotFound extensionNotFoundMessage) ∧
    getExtensionVersion gallery publisher extension version
      = Except.error (MarketplaceError.extensionNotFound extensionNotFoundMessage) ∧
    getLatestVersion gallery publisher extension
      = Except.error (MarketplaceError.extensionNotFound extensionNotFoundMessage) ∧
    getVsixDownloadUrl gallery publisher extension
      = Except.error (MarketplaceError.extensionNotFound extensionNotFoundMessage) ∧
    downloadExtensionVsix gallery serve fs publisher extension outputDir
      = Except.error (MarketplaceError.extensionNotFound extensionNotFoundMessage) := by
  have hinfo : ∀ fl : List Nat, getExtensionInfo gallery publisher extension fl
      = Except.error (MarketplaceError.extensionNotFound extensionNotFoundMessage) := by
    intro fl
    obtain ⟨r, rest, hg, hr⟩ := h (mkPayload publisher extension fl)
    simp [getExtensionInfo, fetchExtensionData, hg, hr]
  have hver : ∀ v : Option String, getExtensionVersion gallery publisher extension v
      = Except.error (MarketplaceError.extensionNotFound extensionNotFoundMessage) := by
    intro v
    simp [getExtensionVersion, hinfo]
  refine ⟨hinfo flags, hver version, ?_, ?_, ?_⟩
  · simp [getLatestVersion, hver]
  · simp [getVsixDownloadUrl, hver]
  · simp [downloadExtensionVsix, hver]

/-- C1 witness: the end-to-end scenario `publisher = "nonexistent"`,
`extension = "invalid-extension"` against the zero-extensions gallery. -/
theorem facade_rejects_with_extensionNotFound_witness :
    getExtensionInfo galleryNoExtensions "nonexistent" "invalid-extension" [1, 2]
      = Except.error (MarketplaceError.extensionNotFound extensionNotFoundMessage) ∧
    getExtensionVersion galleryNoExtensions "nonexistent" "invalid-extension" none
      = Except.error (MarketplaceError.extensionNotFound extensionNotFoundMessage) ∧
    getLatestVersion galleryNoExtensions "nonexistent" "invalid-extension"
      = Except.error (MarketplaceError.extensionNotFound extensionNotFoundMessage) ∧
    getVsixDownloadUrl galleryNoExtensions "nonexistent" "invalid-extension"
      = Except.error (MarketplaceError.extensionNotFound extensionNotFoundMessage) ∧
    downloadExtensionVsix galleryNoExtensions serveA emptyFs "nonexistent"
        "invalid-extension" "."
      = Except.error (MarketplaceError.extensionNotFound extensionNotFoundMessage) :=
  facade_rejects_with_extensionNotFound galleryNoExtensions "nonexistent"
    "invalid-extension" [1, 2] none serveA emptyFs "."
    (fun _ => ⟨{ extensions := [] }, [], rfl, rfl⟩)

/-- C2: `getExtensionVersion` with no version argument resolves the extension
with exactly the flags `[1, 2]` (bitmask 3) — its result depends on the
gallery only through the query at that payload — and returns exactly
`versions[0]` of the resolved `ExtensionInfo`, with no comparison or
sorting of its own. -/
theorem getExtensionVersion_latest_contract (gallery : Gallery)
    (publisher extension : String) :
    encodeFlags [1, 2] = 3 ∧
    (∀ info : ExtensionInfo,
      getExtensionInfo gallery publisher extension [1, 2] = Except.ok info →
      getExtensionVersion gallery publisher extension none
        = Except.ok info.versions.head?) ∧
    (∀ gallery' : Gallery,
      gallery' (mkPayload publisher extension [1, 2])
        = gallery (mkPayload publisher extension [1, 2]) →
      getExtensionVersion gallery' publisher extension none
        = getExtensionVersion gallery publisher extension none) := by
  refine ⟨rfl, ?_, ?_⟩
  · intro info hinfo
    simp [getExtensionVersion, hinfo]
  · intro gallery' hg
    simp [getExtensionVersion, getExtensionInfo, fetchExtensionData, hg]

/-- C2 witness: on the concrete fixture gallery the latest resolution
returns `versions[0]`, which is the `2.0.0` entry. -/
theorem getExtensionVersion_latest_contract_witness :
    getExtensionInfo galleryA "pub" "ext" [1, 2] = Except.ok infoA ∧
    getExtensionVersion galleryA "pub" "ext" none = Except.ok infoA.versions.head? ∧
    infoA.versions.head? = some versionLatest :=
  ⟨rfl, (getExtensionVersion_latest_contract galleryA "pub" "ext").2.1 infoA rfl, rfl⟩

/-- C6: the flag encoding is the bitwise OR of all elements — the empty
sequence encodes to 0, `[1,2]` to 3, `[256]` to 256, `[1,2,256]` to 259 —
and it is invariant under permutation of the input sequence. -/
theorem encodeFlags_bitwise_or_spec :
    encodeFlags [] = 0 ∧ encodeFlags [1, 2] = 3 ∧ encodeFlags [256] = 256 ∧
    encodeFlags [1, 2, 256] = 259 ∧
    ∀ l l' : List Nat, l.Perm l' → encodeFlags l = encodeFlags l' := by
  refine ⟨rfl, rfl, rfl, rfl, ?_⟩
  intro l l' h
  exact foldl_or_perm h 0

/-- C6 witness: permutation invariance applied to a concrete reordering of
recognized query flags. -/
theorem encodeFlags_bitwise_or_spec_witness :
    encodeFlags [2, 1, 256] = encodeFlags [1, 2, 256] ∧
    encodeFlags [2, 1, 256] = 259 ∧
    isQueryFlag 1 = true ∧ isQueryFlag 2 = true ∧ isQueryFlag 256 = true :=
  ⟨encodeFlags_bitwise_or_spec.2.2.2.2 [2, 1, 256] [1, 2, 256]
      (List.Perm.swap 1 2 [256]),
    by decide, by decide, by decide, by decide⟩

/-- C9: when the gallery's top-level results array is itself empty,
`getExtensionInfo` dereferences `results[0].extensions` without a guard and
fails with a generic runtime failure (a TypeError), which is distinct from
every typed `ExtensionNotFound` error. -/
theorem getExtensionInfo_emptyResults_unguarded (gallery : Gallery)
    (publisher extension : String) (flags : List Nat)
    (h : gallery (mkPayload publisher extension flags) = []) :
    getExtensionInfo gallery publisher extension flags
      = Except.error (MarketplaceError.genericFailure resultsIndexErrorMessage) ∧
    ∀ s : String, MarketplaceError.genericFailure resultsIndexErrorMessage
      ≠ MarketplaceError.extensionNotFound s := by
  constructor
  · simp [getExtensionInfo, fetchExtensionData, h]
  · intro s hcontra
    exact MarketplaceError.noConfusion hcontra

/-- C9 witness: the empty-results gallery at a concrete query. -/
theorem getExtensionInfo_emptyResults_unguarded_witness :
    getExtensionInfo galleryEmptyResults "pub" "ext" [1, 2]
      = Except.error (MarketplaceError.genericFailure resultsIndexErrorMessage) ∧
    ∀ s : String, MarketplaceError.genericFailure resultsIndexErrorMessage
      ≠ MarketplaceError.extensionNotFound s :=
  getExtensionInfo_emptyResults_unguarded galleryEmptyResults "pub" "ext" [1, 2] rfl

/-- C3 counterexample: the claim says the `VersionNotFound` error carries the
extension identity, but the service passes the fixed message string
`"Version not found."` in the constructor's extension-identity slot: on the
concrete fixture the raised error is
`versionNotFound "Version not found." "9.9.9"`, and that first field equals
none of the identity strings of the queried extension.  Moreover the given
version string `""` matches no entry yet does not reject: the JavaScript
`!version` test routes it to the latest-version branch. -/
theorem getExtensionVersion_notfound_payload_cex :
    getExtensionVersion galleryA "pub" "ext" (some "9.9.9")
      = Except.error (MarketplaceError.versionNotFound versionNotFoundMessage "9.9.9") ∧
    versionNotFoundMessage ≠ "pub" ++ "." ++ "ext" ∧
    versionNotFoundMessage ≠ "ext" ∧
    versionNotFoundMessage ≠ infoA.extensionId ∧
    versionNotFoundMessage ≠ infoA.extensionName ∧
    (∀ v ∈ infoA.versions, v.version ≠ "") ∧
    getExtensionVersion galleryA "pub" "ext" (some "")
      = Except.ok (some versionLatest) := by
  refine ⟨rfl, ?_, ?_, ?_, ?_, ?_, rfl⟩ <;> decide

/-- C3 (amended): for a given non-empty version string, a unique exact string
match among the resolved versions is returned, and no match rejects with a
`VersionNotFound` error carrying the requested version string — with the
fixed message `"Version not found."` in its extension-identity slot, not
the extension identity. -/
theorem getExtensionVersion_exact_match (gallery : Gallery)
    (publisher extension ver : String) (info : ExtensionInfo)
    (hinfo : getExtensionInfo gallery publisher extension [1, 2] = Except.ok info)
    (hne : ver ≠ "") :
    ((∀ v ∈ info.versions, v.version ≠ ver) →
      getExtensionVersion gallery publisher extension (some ver)
        = Except.error (MarketplaceError.versionNotFound versionNotFoundMessage ver)) ∧
    (∀ v, v ∈ info.versions → v.version = ver →
      (∀ w ∈ info.versions, w.version = ver → w = v) →
      getExtensionVersion gallery publisher extension (some ver)
        = Except.ok (some v)) := by
  constructor
  · intro hnone
    have hfind : info.versions.find? (fun entry => entry.version == ver) = none := by
      apply List.find?_eq_none.mpr
      intro x hx
      simp only [beq_iff_eq]
      exact hnone x hx
    simp [getExtensionVersion, hinfo, hne, hfind]
  · intro v hv hvv huniq
    have hfind : info.versions.find? (fun entry => entry.version == ver) = some v :=
      find_of_unique _ v info.versions hv (by simp [hvv])
        (fun b hb hpb => huniq b hb (by simpa using hpb))
    simp [getExtensionVersion, hinfo, hne, hfind]

/-- C3 witness: `"1.2.3"` matches exactly the `1.2.3` entry and in particular
does not match the `1.2.30` entry that is also present. -/
theorem getExtensionVersion_exact_match_witness :
    getExtensionVersion galleryA "pub" "ext" (some "1.2.3")
      = Except.ok (some versionOneTwoThree) ∧
    versionOneTwoThree.version = "1.2.3" ∧
    versionOneTwoThirty.version = "1.2.30" ∧
    versionOneTwoThirty ∈ infoA.versions :=
  ⟨(getExtensionVersion_exact_match galleryA "pub" "ext" "1.2.3" infoA rfl
      (by decide)).2 versionOneTwoThree (by decide) rfl (by decide),
    rfl, rfl, by decide⟩

/-- C4: for a resolved latest version, `getVsixDownloadUrl` returns the
`source` of the file entry whose `assetType` equals the VSIX package
constant, and rejects with the typed `VsixFileNotFound` error when the
version's files contain no such entry. -/
theorem getVsixDownloadUrl_asset_spec (gallery : Gallery)
    (publisher extension : String) (v : ExtensionVersion)
    (hv : getExtensionVersion gallery publisher extension none
      = Except.ok (some v)) :
    ((∀ f ∈ v.files, f.assetType ≠ vsixPackageAssetType) →
      getVsixDownloadUrl gallery publisher extension
        = Except.error (MarketplaceError.vsixFileNotFound vsixFileNotFoundMessage)) ∧
    (∀ f, f ∈ v.files → f.assetType = vsixPackageAssetType →
      (∀ f' ∈ v.files, f'.assetType = vsixPackageAssetType → f' = f) →
      getVsixDownloadUrl gallery publisher extension = Except.ok f.source) := by
  constructor
  · intro hnone
    have hfind : v.files.find?
        (fun file => file.assetType == vsixPackageAssetType) = none := by
      apply List.find?_eq_none.mpr
      intro x hx
      simp only [beq_iff_eq]
      exact hnone x hx
    simp [getVsixDownloadUrl, hv, hfind]
  · intro f hf hft huniq
    have hfind : v.files.find?
        (fun file => file.assetType == vsixPackageAssetType) = some f :=
      find_of_unique _ f v.files hf (by simp [hft])
        (fun b hb hpb => huniq b hb (by simpa using hpb))
    simp [getVsixDownloadUrl, hv, hfind]

/-- C4 witness: on the main fixture the latest version has exactly one VSIX
asset and its source URL is returned. -/
theorem getVsixDownloadUrl_asset_spec_witness :
    getVsixDownloadUrl galleryA "pub" "ext" = Except.ok vsixFileOne.source :=
  (getVsixDownloadUrl_asset_spec galleryA "pub" "ext" versionLatest rfl).2
    vsixFileOne (by decide) rfl (by decide)

/-- C5: a successful `downloadExtensionVsix` returns the join of the output
directory with `publisher + "." + extension + "-" + version + ".vsix"` for
the resolved latest version, and the file written at that path holds
exactly the bytes served at the resolved download URL. -/
theorem downloadExtensionVsix_path_content (gallery : Gallery)
    (serve : String → List Nat) (fs : FileSystem)
    (publisher extension outputDir : String) (out : FileSystem × String)
    (h : downloadExtensionVsix gallery serve fs publisher extension outputDir
      = Except.ok out) :
    ∃ v url,
      getExtensionVersion gallery publisher extension none = Except.ok (some v) ∧
      getVsixDownloadUrl gallery publisher extension = Except.ok url ∧
      out.2 = pathJoin outputDir
        (publisher ++ "." ++ extension ++ "-" ++ v.version ++ ".vsix") ∧
      out.1 out.2 = some (serve url) := by
  unfold downloadExtensionVsix at h
  cases e1 : getExtensionVersion gallery publisher extension none with
  | error err => simp [e1] at h
  | ok v? =>
    cases e2 : getVsixDownloadUrl gallery publisher extension with
    | error err => simp [e1, e2] at h
    | ok url =>
      cases v? with
      | none => simp [e1, e2] at h
      | some v =>
        simp only [e1, e2] at h
        refine ⟨v, url, rfl, rfl, ?_, ?_⟩
        · rw [← Except.ok.inj h]
          rfl
        · rw [← Except.ok.inj h]
          simp [downloadFile, writeFile]

/-- Output fixture for the C5 witness. -/
def outA : FileSystem × String :=
  downloadFile serveA emptyFs "https://gallery.example/vsix-first"
    "downloads/pub.ext-2.0.0.vsix"

/-- C5 witness: a concrete successful download into `downloads`. -/
theorem downloadExtensionVsix_path_content_witness :
    downloadExtensionVsix galleryA serveA emptyFs "pub" "ext" "downloads"
      = Except.ok outA ∧
    ∃ v url,
      getExtensionVersion galleryA "pub" "ext" none = Except.ok (some v) ∧
      getVsixDownloadUrl galleryA "pub" "ext" = Except.ok url ∧
      outA.2 = pathJoin "downloads"
        ("pub" ++ "." ++ "ext" ++ "-" ++ v.version ++ ".vsix") ∧
      outA.1 outA.2 = some (serveA url) :=
  ⟨rfl, downloadExtensionVsix_path_content galleryA serveA emptyFs "pub" "ext"
    "downloads" outA rfl⟩

/-- C7 counterexample: the invariant fails in two ways.  First, the resolver
does silently return a JavaScript `undefined`: with an extension whose
versions list is empty, `getExtensionVersion` without a version argument
resolves successfully to `versions[0]` of the empty list (`undefined`,
modelled as `none`), raising no error at all.  Second, not every failing
lookup raises a typed error: extension resolution against an empty
top-level results array, and the latest-version-string and asset-location
lookups downstream of the leaked `undefined`, all fail with the untyped
`genericFailure` (a raw TypeError), not a typed domain error. -/
theorem resolver_silent_undefined_cex :
    (mkInfo []).versions = [] ∧
    getExtensionVersion galleryEmptyVersions "pub" "ext" none = Except.ok none ∧
    (∀ e : MarketplaceError,
      getExtensionVersion galleryEmptyVersions "pub" "ext" none
        ≠ Except.error e) ∧
    getExtensionInfo galleryEmptyResults "pub" "ext" [1, 2]
      = Except.error (MarketplaceError.genericFailure resultsIndexErrorMessage) ∧
    getLatestVersion galleryEmptyVersions "pub" "ext"
      = Except.error (MarketplaceError.genericFailure undefinedVersionErrorMessage) ∧
    getVsixDownloadUrl galleryEmptyVersions "pub" "ext"
      = Except.error (MarketplaceError.genericFailure undefinedFilesErrorMessage) := by
  refine ⟨rfl, rfl, ?_, rfl, rfl, rfl⟩
  intro e h
  exact Except.noConfusion h

/-- C7 (amended): every successful lookup returns an element of the fetched
structure — `getExtensionInfo` yields a member of a returned result set, a
requested version is a member of the resolved versions with the requested
version string, a returned download URL is the source of a VSIX-typed
member of the latest version's files — and every failing lookup fails for
an enumerated cause: absence of a match among fetched candidates raises a
typed error (`ExtensionNotFound` when the first result set has zero
extensions, `VersionNotFound` when a non-empty requested version matches
no entry, `VsixFileNotFound` when the resolved version's files hold no
VSIX entry), while an empty top-level results array — and any lookup
downstream of the leaked `undefined` — fails with the untyped
`genericFailure`; the sole silent case is the latest-version lookup on an
extension whose versions list is empty, which resolves successfully to
`undefined` instead of raising a typed error. -/
theorem resolver_lookups_spec (gallery : Gallery) (publisher extension : String) :
    (∀ flags info,
      getExtensionInfo gallery publisher extension flags = Except.ok info →
      ∃ r, r ∈ gallery (mkPayload publisher extension flags) ∧
        info ∈ r.extensions) ∧
    (∀ ver res, ver ≠ "" →
      getExtensionVersion gallery publisher extension (some ver) = Except.ok res →
      ∃ info v,
        getExtensionInfo gallery publisher extension [1, 2] = Except.ok info ∧
        res = some v ∧ v ∈ info.versions ∧ v.version = ver) ∧
    (∀ res,
      getExtensionVersion gallery publisher extension none = Except.ok res →
      ∃ info,
        getExtensionInfo gallery publisher extension [1, 2] = Except.ok info ∧
        ((∃ v, res = some v ∧ v ∈ info.versions) ∨
          (res = none ∧ info.versions = []))) ∧
    (∀ url,
      getVsixDownloadUrl gallery publisher extension = Except.ok url →
      ∃ v f,
        getExtensionVersion gallery publisher extension none
          = Except.ok (some v) ∧
        f ∈ v.files ∧ f.assetType = vsixPackageAssetType ∧ url = f.source) ∧
    (∀ flags e,
      getExtensionInfo gallery publisher extension flags = Except.error e →
      (gallery (mkPayload publisher extension flags) = [] ∧
        e = MarketplaceError.genericFailure resultsIndexErrorMessage) ∨
      (∃ r rest, gallery (mkPayload publisher extension flags) = r :: rest ∧
        r.extensions = [] ∧
        e = MarketplaceError.extensionNotFound extensionNotFoundMessage)) ∧
    (∀ ver e, ver ≠ "" →
      getExtensionVersion gallery publisher extension (some ver)
        = Except.error e →
      getExtensionInfo gallery publisher extension [1, 2] = Except.error e ∨
      (∃ info,
        getExtensionInfo gallery publisher extension [1, 2] = Except.ok info ∧
        (∀ v ∈ info.versions, v.version ≠ ver) ∧
        e = MarketplaceError.versionNotFound versionNotFoundMessage ver)) ∧
    (∀ e,
      getExtensionVersion gallery publisher extension none = Except.error e →
      getExtensionInfo gallery publisher extension [1, 2] = Except.error e) ∧
    (∀ e,
      getVsixDownloadUrl gallery publisher extension = Except.error e →
      getExtensionVersion gallery publisher extension none = Except.error e ∨
      (getExtensionVersion gallery publisher extension none = Except.ok none ∧
        e = MarketplaceError.genericFailure undefinedFilesErrorMessage) ∨
      (∃ v,
        getExtensionVersion gallery publisher extension none
          = Except.ok (some v) ∧
        (∀ f ∈ v.files, f.assetType ≠ vsixPackageAssetType) ∧
        e = MarketplaceError.vsixFileNotFound vsixFileNotFoundMessage)) := by
  refine ⟨?_, ?_, ?_, ?_, ?_, ?_, ?_, ?_⟩
  · intro flags info h
    unfold getExtensionInfo fetchExtensionData at h
    cases hg : gallery (mkPayload publisher extension flags) with
    | nil => simp [hg] at h
    | cons r rest =>
      rw [hg] at h
      cases he : r.extensions with
      | nil => simp [he] at h
      | cons e es =>
        simp [he] at h
        exact ⟨r, List.mem_cons_self r rest,
          by rw [he, h]; exact List.mem_cons_self info es⟩
  · intro ver res hne h
    unfold getExtensionVersion at h
    cases hi : getExtensionInfo gallery publisher extension [1, 2] with
    | error e => simp [hi] at h
    | ok info =>
      rw [hi] at h
      simp only [if_neg hne] at h
      cases hf : info.versions.find? (fun entry => entry.version == ver) with
      | none => simp [hf] at h
      | some v =>
        simp [hf] at h
        refine ⟨info, v, rfl, h.symm, List.mem_of_find?_eq_some hf, ?_⟩
        have := List.find?_some hf
        simpa using this
  · intro res h
    unfold getExtensionVersion at h
    cases hi : getExtensionInfo gallery publisher extension [1, 2] with
    | error e => simp [hi] at h
    | ok info =>
      rw [hi] at h
      simp only [] at h
      refine ⟨info, rfl, ?_⟩
      cases hv : info.versions with
      | nil =>
        right
        refine ⟨?_, rfl⟩
        have : res = info.versions.head? := by
          simpa using (Except.ok.inj h).symm
        rw [this, hv]
        rfl
      | cons v vs =>
        left
        have : res = info.versions.head? := by
          simpa using (Except.ok.inj h).symm
        refine ⟨v, ?_, List.mem_cons_self v vs⟩
        rw [this, hv]
        rfl
  · intro url h
    unfold getVsixDownloadUrl at h
    cases he : getExtensionVersion gallery publisher extension none with
    | error e => simp [he] at h
    | ok v? =>
      rw [he] at h
      cases v? with
      | none => simp at h
      | some v =>
        cases hf : v.files.find?
            (fun file => file.assetType == vsixPackageAssetType) with
        | none => simp [hf] at h
        | some f =>
          simp [hf] at h
          refine ⟨v, f, rfl, List.mem_of_find?_eq_some hf, ?_, h.symm⟩
          have := List.find?_some hf
          simpa using this
  · intro flags e h
    unfold getExtensionInfo fetchExtensionData at h
    cases hg : gallery (mkPayload publisher extension flags) with
    | nil =>
      rw [hg] at h
      simp at h
      exact Or.inl ⟨rfl, h.symm⟩
    | cons r rest =>
      rw [hg] at h
      cases he : r.extensions with
      | nil =>
        simp [he] at h
        exact Or.inr ⟨r, rest, rfl, he, h.symm⟩
      | cons x xs => simp [he] at h
  · intro ver e hne h
    unfold getExtensionVersion at h
    cases hi : getExtensionInfo gallery publisher extension [1, 2] with
    | error e0 =>
      rw [hi] at h
      simp at h
      exact Or.inl (by rw [h])
    | ok info =>
      rw [hi] at h
      simp only [if_neg hne] at h
      cases hf : info.versions.find? (fun entry => entry.version == ver) with
      | none =>
        simp [hf] at h
        refine Or.inr ⟨info, rfl, ?_, h.symm⟩
        intro v hv
        have := List.find?_eq_none.mp hf v hv
        simpa using this
      | some v => simp [hf] at h
  · intro e h
    unfold getExtensionVersion at h
    cases hi : getExtensionInfo gallery publisher extension [1, 2] with
    | error e0 =>
      rw [hi] at h
      simp at h
      rw [h]
    | ok info =>
      rw [hi] at h
      simp at h
  · intro e h
    unfold getVsixDownloadUrl at h
    cases he : getExtensionVersion gallery publisher extension none with
    | error e0 =>
      rw [he] at h
      simp at h
      exact Or.inl (by rw [h])
    | ok v? =>
      rw [he] at h
      cases v? with
      | none =>
        simp at h
        exact Or.inr (Or.inl ⟨rfl, h.symm⟩)
      | some v =>
        cases hf : v.files.find?
            (fun file => file.assetType == vsixPackageAssetType) with
        | none =>
          simp [hf] at h
          refine Or.inr (Or.inr ⟨v, rfl, ?_, h.symm⟩)
          intro f hfm
          have := List.find?_eq_none.mp hf f hfm
          simpa using this
        | some f => simp [hf] at h

/-- C7 witness: the asset-lookup success clause and the typed
`VersionNotFound` error clause applied at the concrete fixture. -/
theorem resolver_lookups_spec_witness :
    (getVsixDownloadUrl galleryA "pub" "ext"
      = Except.ok "https://gallery.example/vsix-first" ∧
    ∃ v f,
      getExtensionVersion galleryA "pub" "ext" none = Except.ok (some v) ∧
      f ∈ v.files ∧ f.assetType = vsixPackageAssetType ∧
      "https://gallery.example/vsix-first" = f.source) ∧
    (getExtensionVersion galleryA "pub" "ext" (some "9.9.9")
      = Except.error
        (MarketplaceError.versionNotFound versionNotFoundMessage "9.9.9") ∧
    (getExtensionInfo galleryA "pub" "ext" [1, 2]
        = Except.error
          (MarketplaceError.versionNotFound versionNotFoundMessage "9.9.9") ∨
      (∃ info,
        getExtensionInfo galleryA "pub" "ext" [1, 2] = Except.ok info ∧
        (∀ v ∈ info.versions, v.version ≠ "9.9.9") ∧
        MarketplaceError.versionNotFound versionNotFoundMessage "9.9.9"
          = MarketplaceError.versionNotFound versionNotFoundMessage "9.9.9"))) :=
  ⟨⟨rfl, (resolver_lookups_spec galleryA "pub" "ext").2.2.2.1
      "https://gallery.example/vsix-first" rfl⟩,
    ⟨rfl, (resolver_lookups_spec galleryA "pub" "ext").2.2.2.2.2.1 "9.9.9"
      (MarketplaceError.versionNotFound versionNotFoundMessage "9.9.9")
      (by decide) rfl⟩⟩

/-- C8: since the gallery is a deterministic function of the query, the two
internal version resolutions of `downloadExtensionVsix` agree, and the
spec's single-resolution variant is observably equivalent: it produces the
same result (same path, same downloaded bytes, same errors) on every
input. -/
theorem downloadExtensionVsix_coalesce_equiv (gallery : Gallery)
    (serve : String → List Nat) (fs : FileSystem)
    (publisher extension outputDir : String) :
    downloadExtensionVsixCoalesced gallery serve fs publisher extension outputDir
      = downloadExtensionVsix gallery serve fs publisher extension outputDir := by
  unfold downloadExtensionVsix downloadExtensionVsixCoalesced getVsixDownloadUrl
  cases he : getExtensionVersion gallery publisher extension none with
  | error e => simp [he]
  | ok v? =>
    cases v? with
    | none => simp [he]
    | some v =>
      cases hf : v.files.find?
          (fun file => file.assetType == vsixPackageAssetType) with
      | none => simp [he, hf]
      | some f => simp [he, hf]

/-- C10: when the resolved latest version's files hold several entries with
the VSIX package asset type, `getVsixDownloadUrl` returns the source of
the first such entry in files order. -/
theorem getVsixDownloadUrl_first_match (gallery : Gallery)
    (publisher extension : String) (v : ExtensionVersion)
    (l₁ l₂ : List ExtensionFile) (f : ExtensionFile)
    (hv : getExtensionVersion gallery publisher extension none
      = Except.ok (some v))
    (hfiles : v.files = l₁ ++ f :: l₂)
    (hf : f.assetType = vsixPackageAssetType)
    (hl : ∀ f' ∈ l₁, f'.assetType ≠ vsixPackageAssetType) :
    getVsixDownloadUrl gallery publisher extension = Except.ok f.source := by
  have hfind : v.files.find?
      (fun file => file.assetType == vsixPackageAssetType) = some f := by
    rw [hfiles]
    exact find_first_of_append _ f l₂ l₁
      (fun b hb => by
        rw [beq_eq_false_iff_ne]
        exact hl b hb)
      (by simp [hf])
  simp [getVsixDownloadUrl, hv, hfind]

/-- C10 witness: the fixture version carries two VSIX entries with distinct
sources and the first one's source is returned. -/
theorem getVsixDownloadUrl_first_match_witness :
    getVsixDownloadUrl galleryB "pub" "ext" = Except.ok vsixFileOne.source ∧
    vsixFileOne.source ≠ vsixFileTwo.source ∧
    vsixFileTwo ∈ versionWithTwoVsix.files ∧
    vsixFileTwo.assetType = vsixPackageAssetType :=
  ⟨getVsixDownloadUrl_first_match galleryB "pub" "ext" versionWithTwoVsix
      [manifestFile] [vsixFileTwo] vsixFileOne rfl rfl rfl (by decide),
    by decide, by decide, rfl⟩
